import Mathlib

/-!
Shallow embedding of the 2D arcade-game core of this repository
(model.js: GameModel, GameObject, Triangle; controller.js: the game loop of
GameController).  Positions, sizes, colors and the score are modelled as
rationals; the Math.random stream is an explicit stream of rationals consumed
in call order.  Rendering and input wiring (view.js, the event listeners) are
external collaborators with no effect on the model state and are not embedded.
-/

/- Batteries marks the rational-number operations irreducible, which blocks
the evaluation of concrete game states in proofs; restore the default
reducibility for this file.  (Rat.div is already semireducible.) -/
attribute [local semireducible] Rat.add Rat.mul Rat.inv Rat.sub Rat.ofScientific

namespace Game2D

/-- RGBA color, a 4-component tuple of normalized values in model.js. -/
structure Color where
  r : ℚ
  g : ℚ
  b : ℚ
  a : ℚ
deriving DecidableEq

/-- A triangle game object (class Triangle in model.js): position, size, color.
GameObject carries x, y and an empty update; Triangle adds size and color. -/
structure Triangle where
  x : ℚ
  y : ℚ
  size : ℚ
  color : Color
deriving DecidableEq

/-- Triangle.update() has an empty body in model.js: the object is unchanged. -/
def Triangle.update (t : Triangle) : Triangle := t

/-- The fixed palette this.colors of GameModel: red, green, blue, yellow,
magenta, cyan, all opaque. -/
def colors : List Color :=
  [⟨1, 0, 0, 1⟩, ⟨0, 1, 0, 1⟩, ⟨0, 0, 1, 1⟩, ⟨1, 1, 0, 1⟩, ⟨1, 0, 1, 1⟩, ⟨0, 1, 1, 1⟩]

/-- Opaque green, the color forced onto the player in createGameObjects. -/
def greenColor : Color := ⟨0, 1, 0, 1⟩

/-- Opaque red, the hazard color. -/
def redColor : Color := ⟨1, 0, 0, 1⟩

/-- The red test used throughout model.js:
color[0] === 1 && color[1] === 0 && color[2] === 0.
The alpha component is never inspected by the source. -/
def isRedColor (c : Color) : Bool :=
  c.r == 1 && c.g == 0 && c.b == 0

/-- this.gameState takes the string values playing, won, lost. -/
inductive GameState where
  | playing
  | won
  | lost
deriving DecidableEq

/-- The pressed-key snapshot.  this.keys maps arbitrary key names to booleans,
but updatePlayer only ever reads ArrowUp, ArrowDown, ArrowLeft, ArrowRight,
so the snapshot is modelled by those four booleans. -/
structure Keys where
  up : Bool
  down : Bool
  left : Bool
  right : Bool
deriving DecidableEq

/-- GameModel state.  this.player is a reference to gameObjects[0]
(set at the end of createGameObjects), and no later operation removes or
reorders index 0, so the player is modelled as the entry at index 0. -/
structure GameModel where
  gameObjects : List Triangle
  gameState : GameState
  score : ℚ
  keys : Keys
deriving DecidableEq

/-- Fallback value for list indexing.  Every index used by the source is a
live index of the current array, so this value is never produced on the
executions modelled here. -/
def defaultTriangle : Triangle := ⟨0, 0, 0, ⟨0, 0, 0, 0⟩⟩

/-- The body of GameModel.updatePlayer, acting on the player object.
Each arrow key moves the player by 0.01 when the current coordinate passes
the bound test; the four conditionals execute in order, each one reading the
coordinates left by the previous one.  size is read once at entry. -/
def movePlayer (keys : Keys) (p0 : Triangle) : Triangle :=
  let size := p0.size
  let p1 := if keys.up ∧ p0.y < 1 - size then { p0 with y := p0.y + 1/100 } else p0
  let p2 := if keys.down ∧ p1.y > -1 + size then { p1 with y := p1.y - 1/100 } else p1
  let p3 := if keys.left ∧ p2.x > -1 + size then { p2 with x := p2.x - 1/100 } else p2
  let p4 := if keys.right ∧ p3.x < 1 - size then { p3 with x := p3.x + 1/100 } else p3
  p4

/-- GameModel.updatePlayer: mutates this.player in place, i.e. entry 0 of
gameObjects. -/
def updatePlayer (s : GameModel) : GameModel :=
  { s with gameObjects :=
      s.gameObjects.set 0 (movePlayer s.keys (s.gameObjects.getD 0 defaultTriangle)) }

/-- GameModel.isColliding.  The source computes
Math.sqrt (dx*dx + dy*dy) < Math.sqrt 3 / 2 * triangle1.size; over the
nonnegative reals this comparison is equivalent to comparing the squares,
which keeps the definition executable over the rationals.  The equivalence
with the literal square-root form is proved in isColliding_iff_sqrt below. -/
def isColliding (t1 t2 : Triangle) : Bool :=
  let dx := t1.x - t2.x
  let dy := t1.y - t2.y
  decide (dx * dx + dy * dy < 3/4 * (t1.size * t1.size))

/-- GameModel.handleCollision on the pair at positions i and j of the current
array.  triangle === this.player is reference equality against the object at
index 0, so it holds exactly for index 0.  indexOf(otherTriangle) returns the
other object's current position (references are distinct), which is the other
index of the pair, and splice(index, 1) is eraseIdx at that position; the
index > -1 guard always holds for a live element. -/
def handleCollision (s : GameModel) (i j : ℕ) : GameModel :=
  if i = 0 ∨ j = 0 then
    let other := if i = 0 then j else i
    let t := s.gameObjects.getD other defaultTriangle
    if isRedColor t.color then
      { s with gameState := .lost }
    else
      { s with score := s.score + 10, gameObjects := s.gameObjects.eraseIdx other }
  else s

/-- The body of the inner loop of GameModel.checkCollisions:
if (isColliding(gameObjects[i], gameObjects[j])) handleCollision(...). -/
def collideStep (s : GameModel) (i j : ℕ) : GameModel :=
  if isColliding (s.gameObjects.getD i defaultTriangle)
      (s.gameObjects.getD j defaultTriangle) then
    handleCollision s i j
  else s

/-- The inner loop of GameModel.checkCollisions:
for (j = i + 1; j < gameObjects.length; j++), where the length is re-read on
every test and handleCollision may remove one element below index j.
The fuel argument only bounds the number of iterations; since the array never
grows and j strictly increases, any fuel at least length - j reproduces the
loop exactly (collideInner_fuel below). -/
def collideInner : ℕ → GameModel → ℕ → ℕ → GameModel
  | 0, s, _, _ => s
  | fuel + 1, s, i, j =>
    if j < s.gameObjects.length then
      collideInner fuel (collideStep s i j) i (j + 1)
    else s

/-- The outer loop of GameModel.checkCollisions:
for (i = 0; i < gameObjects.length; i++), length re-read each test.
As with collideInner, the fuel only bounds the iteration count. -/
def collideOuter : ℕ → GameModel → ℕ → GameModel
  | 0, s, _ => s
  | fuel + 1, s, i =>
    if i < s.gameObjects.length then
      let s1 := collideInner s.gameObjects.length s i (i + 1)
      collideOuter fuel s1 (i + 1)
    else s

/-- GameModel.checkCollisions.  The array length never grows during the pass,
so the initial length bounds the iteration counts of both loops. -/
def checkCollisions (s : GameModel) : GameModel :=
  collideOuter s.gameObjects.length s 0

/-- The filter of GameModel.checkGameOver:
gameObjects.filter(obj => !(red test on obj.color)). -/
def nonRedTriangles (objs : List Triangle) : List Triangle :=
  objs.filter (fun o => !(isRedColor o.color))

/-- GameModel.checkGameOver: if only one non-red triangle is left, the game
state becomes won.  The current state is not consulted. -/
def checkGameOver (s : GameModel) : GameModel :=
  if (nonRedTriangles s.gameObjects).length = 1 then { s with gameState := .won } else s

/-- GameModel.update: updatePlayer, then the empty per-object updates, then
checkCollisions, then checkGameOver. -/
def update (s : GameModel) : GameModel :=
  let s1 := updatePlayer s
  let s2 := { s1 with gameObjects := s1.gameObjects.map Triangle.update }
  checkGameOver (checkCollisions s2)

/-- The Math.random stream: a stream of rationals (each draw lies in [0,1)
in the modelled executions) together with the position of the next draw. -/
structure Rng where
  stream : ℕ → ℚ
  idx : ℕ

/-- One call of Math.random(). -/
def Rng.next (g : Rng) : ℚ × Rng :=
  (g.stream g.idx, ⟨g.stream, g.idx + 1⟩)

/-- All draws of the stream lie in [0,1), the range of Math.random. -/
def validRng (g : Rng) : Prop :=
  ∀ n, 0 ≤ g.stream n ∧ g.stream n < 1

/-- const size = 0.1 in createGameObjects. -/
def size0 : ℚ := 1/10

/-- const padding = size. -/
def padding : ℚ := size0

/-- One random coordinate draw of createGameObjects:
Math.random() * (2 - 2 * padding) - (1 - padding). -/
def randCoord (g : Rng) : ℚ × Rng :=
  let p := g.next
  (p.1 * (2 - 2 * padding) - (1 - padding), p.2)

/-- The color draw of the second loop of createGameObjects:
colors[Math.floor(Math.random() * colors.length)], then
while the draw is red, colors[Math.floor(Math.random() * (colors.length - 1)) + 1].
Every redraw index lies in 1..5 and those palette entries are not red
(colors_redraw_not_red below), so the while loop executes at most one
iteration; the single conditional redraw is therefore an exact rendering. -/
def randColor (g : Rng) : Color × Rng :=
  let p := g.next
  let c := colors.getD (Int.toNat ⌊p.1 * (colors.length : ℚ)⌋) ⟨0, 0, 0, 0⟩
  if isRedColor c then
    let q := p.2.next
    (colors.getD (Int.toNat ⌊q.1 * ((colors.length : ℚ) - 1)⌋ + 1) ⟨0, 0, 0, 0⟩, q.2)
  else
    (c, p.2)

/-- The first loop of createGameObjects: n red triangles at random positions. -/
def spawnReds : ℕ → Rng → List Triangle × Rng
  | 0, g => ([], g)
  | n + 1, g =>
    let px := randCoord g
    let py := randCoord px.2
    let rest := spawnReds n py.2
    (Triangle.mk px.1 py.1 size0 redColor :: rest.1, rest.2)

/-- The second loop of createGameObjects: n triangles at random positions with
non-red palette colors. -/
def spawnOthers : ℕ → Rng → List Triangle × Rng
  | 0, g => ([], g)
  | n + 1, g =>
    let px := randCoord g
    let py := randCoord px.2
    let pc := randColor py.2
    let rest := spawnOthers n pc.2
    (Triangle.mk px.1 py.1 size0 pc.1 :: rest.1, rest.2)

/-- GameModel.createGameObjects: three red triangles, then seven non-red ones,
then this.player = gameObjects[0] and this.player.color = [0,1,0,1]
(mutating the first element in place). -/
def createGameObjects (g : Rng) : List Triangle :=
  let reds := spawnReds 3 g
  let others := spawnOthers 7 reds.2
  let objs := reds.1 ++ others.1
  objs.set 0 { objs.getD 0 defaultTriangle with color := greenColor }

/-- GameModel.initializeGame: reset state and score, respawn the objects.
The pressed-key map is kept. -/
def initializeGame (s : GameModel) (g : Rng) : GameModel :=
  { s with gameState := .playing, score := 0, gameObjects := createGameObjects g }

/-- this.gameDuration = 1 * 60 * 1000 in GameController.startGame,
in milliseconds. -/
def gameDuration : ℤ := 60000

/-- The timeout check at the head of GameController.gameLoop:
remainingTime = max(0, gameDuration - elapsedTime); when it has reached zero
the game state is forced to lost.  displayTimer only drives the view. -/
def applyTimeout (m : GameModel) (startTime now : ℤ) : GameModel :=
  let elapsedTime := now - startTime
  let remainingTime := max 0 (gameDuration - elapsedTime)
  if remainingTime ≤ 0 then { m with gameState := .lost } else m

/-- One tick of GameController.gameLoop at wall-clock time now: the timeout
check, then model.update(); view.render only drives the view.  The boolean is
true exactly when gameState === playing afterwards, i.e. when
requestAnimationFrame schedules another tick. -/
def gameLoopStep (m : GameModel) (startTime now : ℤ) : GameModel × Bool :=
  let m2 := update (applyTimeout m startTime now)
  (m2, decide (m2.gameState = .playing))

/-- A run of consecutive model ticks; each tick sees the key snapshot left by
the event listeners since the previous tick. -/
def runTicks (s : GameModel) : List Keys → GameModel
  | [] => s
  | k :: ks => runTicks (update { s with keys := k }) ks

/-- No key pressed. -/
def noKeys : Keys := ⟨false, false, false, false⟩

/-- The widened play box: the bound tests of updatePlayer look at the
position before the step, so each coordinate stays within one 0.01-step of
[-1+size, 1-size]. -/
def inPlayBox (p : Triangle) : Prop :=
  -1 + p.size - 1/100 ≤ p.x ∧ p.x ≤ 1 - p.size + 1/100 ∧
    -1 + p.size - 1/100 ≤ p.y ∧ p.y ≤ 1 - p.size + 1/100

/-! ### Concrete states used to evaluate the model on explicit inputs -/

/-- A green player triangle at the origin. -/
def demoPlayer : Triangle := ⟨0, 0, 1/10, greenColor⟩

/-- A blue collectible 0.05 right of the player (within collision range,
since 0.05 < (√3/2)·0.1 ≈ 0.0866). -/
def demoBlueA : Triangle := ⟨1/20, 0, 1/10, ⟨0, 0, 1, 1⟩⟩

/-- A blue collectible 0.05 above the player (within collision range). -/
def demoBlueB : Triangle := ⟨0, 1/20, 1/10, ⟨0, 0, 1, 1⟩⟩

/-- A red hazard 0.05 above the player (within collision range). -/
def demoHazard : Triangle := ⟨0, 1/20, 1/10, redColor⟩

/-- A red hazard far away from the origin (no collision with demoPlayer). -/
def farHazard : Triangle := ⟨89/100, 89/100, 1/10, redColor⟩

/-- A blue collectible far away from the origin. -/
def farBlue : Triangle := ⟨-89/100, -89/100, 1/10, ⟨0, 0, 1, 1⟩⟩

/-- Player, then a colliding collectible, then a colliding hazard. -/
def c2State : GameModel := ⟨[demoPlayer, demoBlueA, demoHazard], .playing, 0, noKeys⟩

/-- Player and two collectibles that both collide with it. -/
def c5State : GameModel := ⟨[demoPlayer, demoBlueA, demoBlueB], .playing, 0, noKeys⟩

/-- Player near the upper bound (y = 0.895 ∈ [-0.9, 0.9]) with ArrowUp held. -/
def edgeState : GameModel :=
  ⟨[⟨0, 179/200, 1/10, greenColor⟩], .playing, 0, ⟨true, false, false, false⟩⟩

/-- Player and one far-away hazard: the next tick wins the round. -/
def winState : GameModel := ⟨[demoPlayer, farHazard], .playing, 0, noKeys⟩

/-- Player, a far hazard and a far collectible: the next tick changes
nothing and the round stays active. -/
def quietState : GameModel :=
  ⟨[demoPlayer, farHazard, farBlue], .playing, 0, noKeys⟩

/-- The constant one-half stream: a valid Math.random stream. -/
def halfRng : Rng := ⟨fun _ => 1/2, 0⟩

/-- Draws for a spawn whose fourth entity receives the green palette color:
six coordinate draws, then x, y, color for entity 3 with color draw 1/6
(palette index 1 = green), then x, y, color for entities 4..9 with color
draw 1/3 (palette index 2 = blue). -/
def c7List : List ℚ :=
  [1/2, 1/2, 1/2, 1/2, 1/2, 1/2] ++ [1/2, 1/2, 1/6] ++
    [1/2, 1/2, 1/3, 1/2, 1/2, 1/3, 1/2, 1/2, 1/3,
     1/2, 1/2, 1/3, 1/2, 1/2, 1/3, 1/2, 1/2, 1/3]

def c7Rng : Rng := ⟨fun n => c7List.getD n (1/3), 0⟩

/-- Draws for a spawn that puts the player and all seven collectibles at the
origin (mutually colliding) and the two surviving hazards at (0.89, 0.89):
the round is then won after three ticks with no keys pressed. -/
def traceList : List ℚ :=
  [1/2, 1/2, 179/180, 179/180, 179/180, 179/180] ++
    [1/2, 1/2, 1/3, 1/2, 1/2, 1/3, 1/2, 1/2, 1/3, 1/2, 1/2, 1/3,
     1/2, 1/2, 1/3, 1/2, 1/2, 1/3, 1/2, 1/2, 1/3]

def traceRng : Rng := ⟨fun n => traceList.getD n (1/2), 0⟩

/-- The state at round start: startGame calls initializeGame and then runs
the first tick immediately. -/
def traceS0 : GameModel := initializeGame ⟨[], .playing, 0, noKeys⟩ traceRng

/-- After the first tick (at the start timestamp). -/
def traceS1 : GameModel := (gameLoopStep traceS0 0 0).1

/-- After the second tick, one animation frame later. -/
def traceS2 : GameModel := (gameLoopStep traceS1 0 16).1

/-! ### Faithfulness of the executable collision test

The source compares Math.sqrt(dx*dx + dy*dy) with Math.sqrt(3)/2 * size;
over the reals this is equivalent to the square-free comparison used by the
executable definition, for every nonnegative size. -/

theorem isColliding_iff_sqrt (t1 t2 : Triangle) (h : 0 ≤ t1.size) :
    isColliding t1 t2 = true ↔
      Real.sqrt (((t1.x - t2.x : ℚ) : ℝ) * ((t1.x - t2.x : ℚ) : ℝ)
          + ((t1.y - t2.y : ℚ) : ℝ) * ((t1.y - t2.y : ℚ) : ℝ))
        < Real.sqrt 3 / 2 * ((t1.size : ℚ) : ℝ) := by
  simp only [isColliding, decide_eq_true_eq]
  rcases eq_or_lt_of_le h with hs | hs
  · constructor
    · intro hlt
      exfalso
      nlinarith [mul_self_nonneg (t1.x - t2.x), mul_self_nonneg (t1.y - t2.y)]
    · intro hlt
      exfalso
      have h0 : ((t1.size : ℚ) : ℝ) = 0 := by rw [← hs]; norm_num
      rw [h0, mul_zero] at hlt
      exact absurd hlt (not_lt.mpr (Real.sqrt_nonneg _))
  · have hpos : (0 : ℝ) < Real.sqrt 3 / 2 * ((t1.size : ℚ) : ℝ) := by
      have h3 : (0 : ℝ) < Real.sqrt 3 := Real.sqrt_pos.mpr (by norm_num)
      have hs' : (0 : ℝ) < ((t1.size : ℚ) : ℝ) := by exact_mod_cast hs
      positivity
    rw [Real.sqrt_lt' hpos]
    have hsq : (Real.sqrt 3 / 2 * ((t1.size : ℚ) : ℝ)) ^ 2
        = 3 / 4 * (((t1.size : ℚ) : ℝ) * ((t1.size : ℚ) : ℝ)) := by
      have h3 : Real.sqrt 3 ^ 2 = 3 := Real.sq_sqrt (by norm_num)
      calc (Real.sqrt 3 / 2 * ((t1.size : ℚ) : ℝ)) ^ 2
          = Real.sqrt 3 ^ 2 * (((t1.size : ℚ) : ℝ) * ((t1.size : ℚ) : ℝ)) / 4 := by ring
        _ = 3 / 4 * (((t1.size : ℚ) : ℝ) * ((t1.size : ℚ) : ℝ)) := by rw [h3]; ring
    rw [hsq]
    rw [show ((t1.x - t2.x : ℚ) : ℝ) * ((t1.x - t2.x : ℚ) : ℝ)
          + ((t1.y - t2.y : ℚ) : ℝ) * ((t1.y - t2.y : ℚ) : ℝ)
        = (((t1.x - t2.x) * (t1.x - t2.x) + (t1.y - t2.y) * (t1.y - t2.y) : ℚ) : ℝ) by
          push_cast; ring]
    rw [show (3 : ℝ) / 4 * (((t1.size : ℚ) : ℝ) * ((t1.size : ℚ) : ℝ))
        = ((3 / 4 * (t1.size * t1.size) : ℚ) : ℝ) by push_cast; ring]
    norm_cast

/-! ### State-transition lemmas for the collision pass -/

theorem handleCollision_gameState (s : GameModel) (i j : ℕ) :
    (handleCollision s i j).gameState = s.gameState ∨
      (handleCollision s i j).gameState = .lost := by
  simp only [handleCollision]
  split
  · split <;> split
    · right; rfl
    · left; rfl
    · right; rfl
    · left; rfl
  · left; rfl

theorem handleCollision_length_le (s : GameModel) (i j : ℕ) :
    (handleCollision s i j).gameObjects.length ≤ s.gameObjects.length := by
  simp only [handleCollision]
  split
  · split <;> split
    · exact le_refl _
    · exact List.length_eraseIdx_le _ _
    · exact le_refl _
    · exact List.length_eraseIdx_le _ _
  · exact le_refl _

theorem collideStep_gameState (s : GameModel) (i j : ℕ) :
    (collideStep s i j).gameState = s.gameState ∨
      (collideStep s i j).gameState = .lost := by
  simp only [collideStep]
  split
  · exact handleCollision_gameState s i j
  · left; rfl

theorem collideStep_length_le (s : GameModel) (i j : ℕ) :
    (collideStep s i j).gameObjects.length ≤ s.gameObjects.length := by
  simp only [collideStep]
  split
  · exact handleCollision_length_le s i j
  · exact le_refl _

theorem collideInner_gameState (fuel : ℕ) :
    ∀ s i j, (collideInner fuel s i j).gameState = s.gameState ∨
      (collideInner fuel s i j).gameState = .lost := by
  induction fuel with
  | zero => intro s i j; left; rfl
  | succ n ih =>
    intro s i j
    simp only [collideInner]
    split
    · rcases ih (collideStep s i j) i (j + 1) with h2 | h2 <;>
        rcases collideStep_gameState s i j with h3 | h3
      · left; rw [h2, h3]
      · right; rw [h2, h3]
      · right; exact h2
      · right; exact h2
    · left; rfl

theorem collideOuter_gameState (fuel : ℕ) :
    ∀ s i, (collideOuter fuel s i).gameState = s.gameState ∨
      (collideOuter fuel s i).gameState = .lost := by
  induction fuel with
  | zero => intro s i; left; rfl
  | succ n ih =>
    intro s i
    simp only [collideOuter]
    split
    · rcases ih (collideInner s.gameObjects.length s i (i + 1)) (i + 1) with h2 | h2 <;>
        rcases collideInner_gameState s.gameObjects.length s i (i + 1) with h3 | h3
      · left; rw [h2, h3]
      · right; rw [h2, h3]
      · right; exact h2
      · right; exact h2
    · left; rfl

theorem checkCollisions_gameState (s : GameModel) :
    (checkCollisions s).gameState = s.gameState ∨
      (checkCollisions s).gameState = .lost :=
  collideOuter_gameState _ s 0

/-- Once the collision pass has set the state to lost, the rest of the pass
keeps it lost: nothing inside checkCollisions writes any other state. -/
theorem checkCollisions_lost (s : GameModel) (h : s.gameState = .lost) :
    (checkCollisions s).gameState = .lost := by
  rcases checkCollisions_gameState s with h1 | h1
  · rw [h1, h]
  · exact h1

theorem checkGameOver_gameObjects (s : GameModel) :
    (checkGameOver s).gameObjects = s.gameObjects := by
  simp only [checkGameOver]
  split <;> rfl

theorem checkGameOver_gameState (s : GameModel) :
    (checkGameOver s).gameState = s.gameState ∨
      (checkGameOver s).gameState = .won := by
  simp only [checkGameOver]
  split
  · right; rfl
  · left; rfl

/-- update never writes the playing state: a terminal state can change only
between won and lost inside a tick, never back to playing. -/
theorem update_playing (s : GameModel) (h : (update s).gameState = .playing) :
    s.gameState = .playing := by
  simp only [update] at h
  rcases checkGameOver_gameState
      (checkCollisions { updatePlayer s with
        gameObjects := (updatePlayer s).gameObjects.map Triangle.update }) with h1 | h1
  · rw [h1] at h
    rcases checkCollisions_gameState { updatePlayer s with
        gameObjects := (updatePlayer s).gameObjects.map Triangle.update } with h2 | h2
    · rw [h2] at h
      exact h
    · rw [h2] at h
      exact absurd h (by simp)
  · rw [h1] at h
    exact absurd h (by simp)

/-! ### The first element (the player) survives the collision pass -/

theorem eraseIdx_head?_pos (l : List Triangle) (j : ℕ) (hj : 0 < j) :
    (l.eraseIdx j).head? = l.head? := by
  cases l with
  | nil => simp
  | cons a t =>
    cases j with
    | zero => omega
    | succ k => simp

theorem handleCollision_head? (s : GameModel) (i j : ℕ) (hj : 0 < j) :
    (handleCollision s i j).gameObjects.head? = s.gameObjects.head? := by
  simp only [handleCollision]
  by_cases hc : i = 0 ∨ j = 0
  · rw [if_pos hc]
    by_cases hr :
        isRedColor ((s.gameObjects.getD (if i = 0 then j else i) defaultTriangle).color) = true
    · rw [if_pos hr]
    · rw [if_neg hr]
      exact eraseIdx_head?_pos _ _ (by split <;> omega)
  · rw [if_neg hc]

theorem collideStep_head? (s : GameModel) (i j : ℕ) (hj : 0 < j) :
    (collideStep s i j).gameObjects.head? = s.gameObjects.head? := by
  simp only [collideStep]
  split
  · exact handleCollision_head? s i j hj
  · rfl

theorem collideInner_head? (fuel : ℕ) :
    ∀ s i j, 0 < j →
      (collideInner fuel s i j).gameObjects.head? = s.gameObjects.head? := by
  induction fuel with
  | zero => intro s i j _; rfl
  | succ n ih =>
    intro s i j hj
    simp only [collideInner]
    split
    · rw [ih (collideStep s i j) i (j + 1) (Nat.succ_pos j)]
      exact collideStep_head? s i j hj
    · rfl

theorem collideOuter_head? (fuel : ℕ) :
    ∀ s i, (collideOuter fuel s i).gameObjects.head? = s.gameObjects.head? := by
  induction fuel with
  | zero => intro s i; rfl
  | succ n ih =>
    intro s i
    simp only [collideOuter]
    split
    · rw [ih (collideInner s.gameObjects.length s i (i + 1)) (i + 1)]
      exact collideInner_head? s.gameObjects.length s i (i + 1) (Nat.succ_pos i)
    · rfl

theorem checkCollisions_head? (s : GameModel) :
    (checkCollisions s).gameObjects.head? = s.gameObjects.head? :=
  collideOuter_head? _ s 0

theorem map_update_id (l : List Triangle) : l.map Triangle.update = l := by
  induction l with
  | nil => rfl
  | cons a t ih => simp [Triangle.update, ih]

/-- Across one whole tick, the player entry (index 0) is exactly the moved
player: the collision pass removes only entries at positive indices. -/
theorem update_head? (s : GameModel) (p : Triangle)
    (h : s.gameObjects.head? = some p) :
    (update s).gameObjects.head? = some (movePlayer s.keys p) := by
  cases hobjs : s.gameObjects with
  | nil => rw [hobjs] at h; simp at h
  | cons a t =>
    rw [hobjs] at h
    have ha : a = p := by
      simpa using h
    subst ha
    simp only [update, updatePlayer, hobjs]
    rw [checkGameOver_gameObjects, checkCollisions_head?]
    simp [map_update_id, Triangle.update]

/-! ### movePlayer facts -/

theorem movePlayer_size (k : Keys) (p : Triangle) :
    (movePlayer k p).size = p.size := by
  simp only [movePlayer]
  split <;> split <;> split <;> split <;> rfl

theorem movePlayer_color (k : Keys) (p : Triangle) :
    (movePlayer k p).color = p.color := by
  simp only [movePlayer]
  split <;> split <;> split <;> split <;> rfl

/-- The bound test of updatePlayer checks the position before the step, so
each coordinate can overshoot [-1+size, 1-size] by at most one step of 0.01;
within the widened box the position is stable under any key combination. -/
theorem movePlayer_bounds (k : Keys) (p : Triangle)
    (hx1 : -1 + p.size - 1/100 ≤ p.x) (hx2 : p.x ≤ 1 - p.size + 1/100)
    (hy1 : -1 + p.size - 1/100 ≤ p.y) (hy2 : p.y ≤ 1 - p.size + 1/100) :
    -1 + p.size - 1/100 ≤ (movePlayer k p).x ∧
      (movePlayer k p).x ≤ 1 - p.size + 1/100 ∧
      -1 + p.size - 1/100 ≤ (movePlayer k p).y ∧
      (movePlayer k p).y ≤ 1 - p.size + 1/100 := by
  simp only [movePlayer]
  split <;> split <;> split <;> split <;>
    simp_all <;> constructor <;> try constructor
  all_goals try constructor
  all_goals linarith

/-! ### Spawn-policy lemmas -/

theorem randCoord_stream (g : Rng) : (randCoord g).2.stream = g.stream := rfl

theorem randColor_stream (g : Rng) : (randColor g).2.stream = g.stream := by
  simp only [randColor, Rng.next]
  split <;> rfl

theorem validRng_of_stream (g1 g2 : Rng) (h : g2.stream = g1.stream)
    (hg : validRng g1) : validRng g2 := by
  intro n
  rw [h]
  exact hg n

theorem randCoord_bound (g : Rng) (hg : validRng g) :
    -1 + size0 ≤ (randCoord g).1 ∧ (randCoord g).1 ≤ 1 - size0 := by
  obtain ⟨h0, h1⟩ := hg g.idx
  simp only [randCoord, Rng.next, padding, size0]
  constructor <;> nlinarith

/-- Every entry of the palette at an index of the form m+1 fails the red
test (index 0 is the only red entry, and an out-of-range index yields the
transparent-black default, also not red).  This is why the redraw loop of
createGameObjects runs at most one iteration. -/
theorem colors_redraw_not_red (m : ℕ) :
    isRedColor (colors.getD (m + 1) ⟨0, 0, 0, 0⟩) = false := by
  match m with
  | 0 => decide
  | 1 => decide
  | 2 => decide
  | 3 => decide
  | 4 => decide
  | m + 5 =>
    rw [List.getD_eq_default]
    · decide
    · simp only [colors, List.length_cons, List.length_nil]
      omega

/-- The color draw of createGameObjects never returns red: a red first draw
is replaced by a draw from palette indices 1..5. -/
theorem randColor_not_red (g : Rng) : isRedColor (randColor g).1 = false := by
  simp only [randColor, Rng.next]
  split
  · exact colors_redraw_not_red _
  · next h => simpa using h

theorem spawnReds_length (n : ℕ) : ∀ g, ((spawnReds n g).1).length = n := by
  induction n with
  | zero => intro g; rfl
  | succ m ih => intro g; simp [spawnReds, ih]

theorem spawnOthers_length (n : ℕ) : ∀ g, ((spawnOthers n g).1).length = n := by
  induction n with
  | zero => intro g; rfl
  | succ m ih => intro g; simp [spawnOthers, ih]

theorem spawnReds_stream (n : ℕ) : ∀ g, ((spawnReds n g).2).stream = g.stream := by
  induction n with
  | zero => intro g; rfl
  | succ m ih => intro g; rw [spawnReds]; exact ih _

theorem spawnOthers_stream (n : ℕ) : ∀ g, ((spawnOthers n g).2).stream = g.stream := by
  induction n with
  | zero => intro g; rfl
  | succ m ih =>
    intro g
    rw [spawnOthers]
    rw [ih]
    exact randColor_stream _

theorem spawnReds_mem (n : ℕ) :
    ∀ g, ∀ t ∈ (spawnReds n g).1, t.size = size0 ∧ t.color = redColor := by
  induction n with
  | zero => intro g t ht; simp [spawnReds] at ht
  | succ m ih =>
    intro g t ht
    rw [spawnReds] at ht
    rcases List.mem_cons.mp ht with h | h
    · subst h; exact ⟨rfl, rfl⟩
    · exact ih _ t h

theorem spawnOthers_mem (n : ℕ) :
    ∀ g, ∀ t ∈ (spawnOthers n g).1, t.size = size0 ∧ isRedColor t.color = false := by
  induction n with
  | zero => intro g t ht; simp [spawnOthers] at ht
  | succ m ih =>
    intro g t ht
    rw [spawnOthers] at ht
    rcases List.mem_cons.mp ht with h | h
    · subst h; exact ⟨rfl, randColor_not_red _⟩
    · exact ih _ t h

theorem spawnReds_mem_bounds (n : ℕ) :
    ∀ g, validRng g → ∀ t ∈ (spawnReds n g).1,
      (-1 + size0 ≤ t.x ∧ t.x ≤ 1 - size0) ∧ (-1 + size0 ≤ t.y ∧ t.y ≤ 1 - size0) := by
  induction n with
  | zero => intro g _ t ht; simp [spawnReds] at ht
  | succ m ih =>
    intro g hg t ht
    rw [spawnReds] at ht
    have hg1 : validRng (randCoord g).2 :=
      validRng_of_stream g _ (randCoord_stream g) hg
    have hg2 : validRng (randCoord (randCoord g).2).2 :=
      validRng_of_stream g _ (by rw [randCoord_stream, randCoord_stream]) hg
    rcases List.mem_cons.mp ht with h | h
    · subst h
      exact ⟨randCoord_bound g hg, randCoord_bound _ hg1⟩
    · exact ih _ hg2 t h

theorem spawnOthers_mem_bounds (n : ℕ) :
    ∀ g, validRng g → ∀ t ∈ (spawnOthers n g).1,
      (-1 + size0 ≤ t.x ∧ t.x ≤ 1 - size0) ∧ (-1 + size0 ≤ t.y ∧ t.y ≤ 1 - size0) := by
  induction n with
  | zero => intro g _ t ht; simp [spawnOthers] at ht
  | succ m ih =>
    intro g hg t ht
    rw [spawnOthers] at ht
    have hg1 : validRng (randCoord g).2 :=
      validRng_of_stream g _ (randCoord_stream g) hg
    have hg2 : validRng (randColor (randCoord (randCoord g).2).2).2 :=
      validRng_of_stream g _
        (by rw [randColor_stream, randCoord_stream, randCoord_stream]) hg
    rcases List.mem_cons.mp ht with h | h
    · subst h
      exact ⟨randCoord_bound g hg, randCoord_bound _ hg1⟩
    · exact ih _ hg2 t h

theorem createGameObjects_length (g : Rng) : (createGameObjects g).length = 10 := by
  simp [createGameObjects, spawnReds_length, spawnOthers_length]

theorem drop_one_set_zero (l : List Triangle) (v : Triangle) :
    (l.set 0 v).drop 1 = l.drop 1 := by
  cases l <;> simp

theorem spawnReds_countP_red (n : ℕ) :
    ∀ g, ((spawnReds n g).1).countP (fun t => isRedColor t.color) = n := by
  induction n with
  | zero => intro g; rfl
  | succ m ih =>
    intro g
    rw [spawnReds]
    simp only [List.countP_cons]
    rw [ih]
    simp [isRedColor, redColor]

theorem spawnOthers_countP_red (n : ℕ) :
    ∀ g, ((spawnOthers n g).1).countP (fun t => isRedColor t.color) = 0 := by
  induction n with
  | zero => intro g; rfl
  | succ m ih =>
    intro g
    rw [spawnOthers]
    simp only [List.countP_cons]
    rw [ih]
    simp [randColor_not_red]

/-- The first spawn loop unrolled once: definitional shape of the list. -/
theorem spawnReds_fst_succ (n : ℕ) (g : Rng) :
    (spawnReds (n + 1) g).1 =
      Triangle.mk (randCoord g).1 (randCoord (randCoord g).2).1 size0 redColor
        :: (spawnReds n (randCoord (randCoord g).2).2).1 := rfl

/-- After the spawn, the nine entities other than the player contain exactly
two red (hazard) triangles: the three reds are created at indices 0..2 and
index 0 is then recolored green. -/
theorem createGameObjects_tail_red_count (g : Rng) :
    ((createGameObjects g).drop 1).countP (fun t => isRedColor t.color) = 2 := by
  simp only [createGameObjects]
  rw [drop_one_set_zero]
  rw [spawnReds_fst_succ]
  simp only [List.cons_append, List.drop_succ_cons, List.drop_zero]
  rw [List.countP_append]
  rw [spawnReds_countP_red, spawnOthers_countP_red]

theorem getD_zero_head? (l : List Triangle) (d : Triangle) :
    l.getD 0 d = l.head?.getD d := by
  cases l <;> rfl

/-- The first spawned entity is always recolored to opaque green. -/
theorem createGameObjects_player_color (g : Rng) :
    ((createGameObjects g).getD 0 defaultTriangle).color = greenColor := by
  simp only [createGameObjects]
  rw [spawnReds_fst_succ]
  simp only [List.cons_append, List.getD_cons_zero, List.set_cons_zero]

/-- Every spawned entity has the fixed size 0.1 and both coordinates inside
[-1+size, 1-size], provided the random draws lie in [0,1). -/
theorem createGameObjects_mem (g : Rng) (hg : validRng g) :
    ∀ t ∈ createGameObjects g, t.size = size0 ∧
      (-1 + size0 ≤ t.x ∧ t.x ≤ 1 - size0) ∧
      (-1 + size0 ≤ t.y ∧ t.y ≤ 1 - size0) := by
  have hval2 : validRng (spawnReds 3 g).2 :=
    validRng_of_stream g _ (spawnReds_stream 3 g) hg
  have hobjs : ∀ u ∈ (spawnReds 3 g).1 ++ (spawnOthers 7 (spawnReds 3 g).2).1,
      u.size = size0 ∧
        (-1 + size0 ≤ u.x ∧ u.x ≤ 1 - size0) ∧
        (-1 + size0 ≤ u.y ∧ u.y ≤ 1 - size0) := by
    intro u hu
    rcases List.mem_append.mp hu with h | h
    · exact ⟨(spawnReds_mem 3 g u h).1, spawnReds_mem_bounds 3 g hg u h⟩
    · exact ⟨(spawnOthers_mem 7 _ u h).1, spawnOthers_mem_bounds 7 _ hval2 u h⟩
  intro t ht
  simp only [createGameObjects] at ht
  cases hsplit : (spawnReds 3 g).1 ++ (spawnOthers 7 (spawnReds 3 g).2).1 with
  | nil =>
    rw [hsplit] at ht
    simp at ht
  | cons a rest =>
    rw [hsplit] at ht
    simp only [List.set_cons_zero, List.getD_cons_zero] at ht
    rcases List.mem_cons.mp ht with h | h
    · subst h
      exact hobjs a (by rw [hsplit]; exact List.mem_cons_self a rest)
    · exact hobjs t (by rw [hsplit]; exact List.mem_cons_of_mem a h)

/-- A tick never changes the color of the player entry: updatePlayer moves
only the position, and the collision pass never touches index 0. -/
theorem update_player_color (s : GameModel) :
    ((update s).gameObjects.getD 0 defaultTriangle).color
      = (s.gameObjects.getD 0 defaultTriangle).color := by
  rw [getD_zero_head?, getD_zero_head?]
  cases hobjs : s.gameObjects with
  | nil =>
    have hnil : (update s).gameObjects.head? = none := by
      simp only [update, updatePlayer, hobjs]
      rw [checkGameOver_gameObjects, checkCollisions_head?]
      rfl
    rw [hnil]
    rfl
  | cons p t =>
    have h := update_head? s p (by rw [hobjs]; rfl)
    rw [h]
    simp [movePlayer_color]

theorem runTicks_player_bounds (inputs : List Keys) :
    ∀ (s : GameModel) (p : Triangle),
      s.gameObjects.head? = some p → inPlayBox p →
      ∃ q, (runTicks s inputs).gameObjects.head? = some q ∧
        q.size = p.size ∧ inPlayBox q := by
  induction inputs with
  | nil => intro s p h hb; exact ⟨p, h, rfl, hb⟩
  | cons k ks ih =>
    intro s p h hb
    rw [runTicks]
    have h2 := update_head? { s with keys := k } p h
    have hb2 : inPlayBox (movePlayer k p) := by
      obtain ⟨hb1, hb2', hb3, hb4⟩ := hb
      have hm := movePlayer_bounds k p hb1 hb2' hb3 hb4
      unfold inPlayBox
      rw [movePlayer_size]
      exact hm
    obtain ⟨q, hq, hqs, hqb⟩ := ih (update { s with keys := k }) (movePlayer k p) h2 hb2
    exact ⟨q, hq, by rw [hqs, movePlayer_size], hqb⟩

/-! ### The fuel of the two collision loops never truncates an iteration

The loops of checkCollisions terminate because the index grows while the
array never grows; the fuel passed in checkCollisions (the current array
length) is always at least the number of remaining iterations, so the fueled
rendering computes exactly the source loops. -/

theorem collideInner_length_le (fuel : ℕ) :
    ∀ s i j, (collideInner fuel s i j).gameObjects.length ≤ s.gameObjects.length := by
  induction fuel with
  | zero => intro s i j; exact le_refl _
  | succ n ih =>
    intro s i j
    simp only [collideInner]
    split
    · exact le_trans (ih (collideStep s i j) i (j + 1)) (collideStep_length_le s i j)
    · exact le_refl _

theorem collideOuter_length_le (fuel : ℕ) :
    ∀ s i, (collideOuter fuel s i).gameObjects.length ≤ s.gameObjects.length := by
  induction fuel with
  | zero => intro s i; exact le_refl _
  | succ n ih =>
    intro s i
    simp only [collideOuter]
    split
    · exact le_trans (ih _ (i + 1)) (collideInner_length_le s.gameObjects.length s i (i + 1))
    · exact le_refl _

/-- Any two fuels that cover the remaining iterations of the inner loop give
the same result: the fuel is an artifact of the embedding, not a semantic
bound. -/
theorem collideInner_fuel (f1 : ℕ) :
    ∀ f2 s i j, s.gameObjects.length ≤ j + f1 → s.gameObjects.length ≤ j + f2 →
      collideInner f1 s i j = collideInner f2 s i j := by
  induction f1 with
  | zero =>
    intro f2 s i j h1 _
    cases f2 with
    | zero => rfl
    | succ m =>
      show s = collideInner (m + 1) s i j
      simp only [collideInner]
      rw [if_neg (by omega)]
  | succ m ih =>
    intro f2 s i j h1 h2
    cases f2 with
    | zero =>
      show collideInner (m + 1) s i j = s
      simp only [collideInner]
      rw [if_neg (by omega)]
    | succ m2 =>
      simp only [collideInner]
      by_cases hj : j < s.gameObjects.length
      · rw [if_pos hj, if_pos hj]
        have hstep := collideStep_length_le s i j
        exact ih m2 (collideStep s i j) i (j + 1) (by omega) (by omega)
      · rw [if_neg hj, if_neg hj]

/-- Fuel-independence of the outer loop, under the same coverage condition. -/
theorem collideOuter_fuel (f1 : ℕ) :
    ∀ f2 s i, s.gameObjects.length ≤ i + f1 → s.gameObjects.length ≤ i + f2 →
      collideOuter f1 s i = collideOuter f2 s i := by
  induction f1 with
  | zero =>
    intro f2 s i h1 _
    cases f2 with
    | zero => rfl
    | succ m =>
      show s = collideOuter (m + 1) s i
      simp only [collideOuter]
      rw [if_neg (by omega)]
  | succ m ih =>
    intro f2 s i h1 h2
    cases f2 with
    | zero =>
      show collideOuter (m + 1) s i = s
      simp only [collideOuter]
      rw [if_neg (by omega)]
    | succ m2 =>
      simp only [collideOuter]
      by_cases hi : i < s.gameObjects.length
      · rw [if_pos hi, if_pos hi]
        have hstep := collideInner_length_le s.gameObjects.length s i (i + 1)
        exact ih m2 _ (i + 1) (by omega) (by omega)
      · rw [if_neg hi, if_neg hi]

/-- checkCollisions computed with any fuel covering the array length agrees
with the definition: the chosen fuel is sufficient. -/
theorem checkCollisions_fuel (s : GameModel) (f : ℕ)
    (hf : s.gameObjects.length ≤ f) :
    checkCollisions s = collideOuter f s 0 :=
  collideOuter_fuel _ f s 0 (by omega) (by omega)

/-! ### Claims -/

/-- C1, counterexample.  On a fully reachable three-tick round (spawned from
an explicit random stream, two ticks scheduled by the loop, both leaving the
state active), the timeout check of the third tick forces the state to LOST,
and the update of that very tick then rewrites it to WON when the last
collectible is collected: a state set to LOST is subsequently changed to
WON, refuting strict terminal-state monotonicity. -/
theorem c1_counterexample :
    (gameLoopStep traceS0 0 0).2 = true ∧
      (gameLoopStep traceS1 0 16).2 = true ∧
      traceS2.gameState = .playing ∧
      (applyTimeout traceS2 0 60000).gameState = .lost ∧
      (gameLoopStep traceS2 0 60000).1.gameState = .won := by
  decide

/-- C1, amended: the terminal state never reverts to ACTIVE — neither a
model update nor a whole loop tick can produce the playing state from a
terminal one — and the loop schedules no further tick once the state is
terminal.  (Within a tick, however, a LOST state can still be rewritten to
WON by the win check, as c1_counterexample shows.) -/
theorem c1_terminal_no_revert (s : GameModel) (startTime now : ℤ) :
    ((update s).gameState = .playing → s.gameState = .playing) ∧
      ((gameLoopStep s startTime now).1.gameState = .playing →
        s.gameState = .playing) ∧
      (s.gameState ≠ .playing → (gameLoopStep s startTime now).2 = false) := by
  have happ : ∀ m st n, (applyTimeout m st n).gameState = .playing →
      m.gameState = .playing := by
    intro m st n h
    simp only [applyTimeout] at h
    revert h
    split
    · intro h; simp at h
    · intro h; exact h
  refine ⟨update_playing s, ?_, ?_⟩
  · intro h
    exact happ s startTime now (update_playing _ h)
  · intro hne
    simp only [gameLoopStep, decide_eq_false_iff_not]
    intro h
    exact hne (happ s startTime now (update_playing _ h))

/-- C1, witness for the amended theorem: a tick from the active quietState
stays active (first conjunct), and a tick from a won state schedules no
further tick (third conjunct). -/
theorem c1_witness :
    quietState.gameState = .playing ∧
      (gameLoopStep { quietState with gameState := .won } 0 0).2 = false :=
  ⟨(c1_terminal_no_revert quietState 0 0).1 (by decide),
    (c1_terminal_no_revert { quietState with gameState := .won } 0 0).2.2 (by decide)⟩

/-- C2, counterexample.  In c2State the player geometrically collides with
both a collectible (listed first) and a hazard in the same tick, yet the
tick removes the collectible, adds 10 to the score, and ends in WON, not
LOST: the collectible's removal shifts the hazard to an inner-loop index
that has already been passed, so the hazard pair is never examined. -/
theorem c2_counterexample :
    isColliding demoPlayer demoHazard = true ∧
      isRedColor demoHazard.color = true ∧
      (update c2State).gameState = .won ∧
      (update c2State).score = 10 ∧
      (update c2State).gameObjects.length = 2 := by
  decide

/-- C2, amended: when the collision pass actually examines a (player, hazard)
pair, the state becomes LOST at that point and that call removes nothing and
adds no score; once LOST, the rest of the pass keeps LOST.  Other pairs of
the same pass are still processed, and the pair may be skipped entirely
after an earlier removal (c2_counterexample). -/
theorem c2_hazard_pair_lost :
    (∀ (s : GameModel) (j : ℕ),
        isRedColor ((s.gameObjects.getD j defaultTriangle).color) = true →
        handleCollision s 0 j = { s with gameState := .lost }) ∧
      (∀ s : GameModel, s.gameState = .lost →
        (checkCollisions s).gameState = .lost) := by
  constructor
  · intro s j hred
    simp only [handleCollision, true_or, if_true]
    rw [if_pos hred]
  · exact fun s h => checkCollisions_lost s h

/-- C2, witness: the amended theorem applied to a state whose entry 1 is a
red triangle, and to a state already lost. -/
theorem c2_witness :
    handleCollision ⟨[demoPlayer, demoHazard], .playing, 0, noKeys⟩ 0 1
        = ⟨[demoPlayer, demoHazard], .lost, 0, noKeys⟩ ∧
      (checkCollisions ⟨[demoPlayer, demoBlueA, demoHazard], .lost, 0, noKeys⟩).gameState
        = .lost :=
  ⟨c2_hazard_pair_lost.1 ⟨[demoPlayer, demoHazard], .playing, 0, noKeys⟩ 1 (by decide),
    c2_hazard_pair_lost.2 ⟨[demoPlayer, demoBlueA, demoHazard], .lost, 0, noKeys⟩ rfl⟩

/-- C3, counterexample.  For the valid constant one-half stream, only 2 of
the 9 entities remaining after the player reassignment carry the hazard
color, refuting the claimed lower bound of 3. -/
theorem c3_counterexample :
    ((createGameObjects halfRng).drop 1).countP (fun t => isRedColor t.color) = 2 ∧
      ¬ 3 ≤ ((createGameObjects halfRng).drop 1).countP
          (fun t => isRedColor t.color) := by
  constructor
  · decide
  · decide

/-- C3, amended: after the first entity is recolored to opaque green,
exactly 2 of the remaining 9 entities have the hazard color — the spawn
always paints entities 0..2 red and the recoloring always discards the red
of entity 0. -/
theorem c3_hazard_count (g : Rng) :
    ((createGameObjects g).drop 1).length = 9 ∧
      ((createGameObjects g).drop 1).countP (fun t => isRedColor t.color) = 2 := by
  constructor
  · rw [List.length_drop, createGameObjects_length]
  · exact createGameObjects_tail_red_count g

/-- C4, counterexample.  A player at y = 0.895 (inside [-0.9, 0.9], hence a
possible spawn position) with ArrowUp held passes the bound test y < 0.9 and
steps to y = 0.905, leaving the claimed interval [-1+size, 1-size]. -/
theorem c4_counterexample :
    (-1 + 1/10 ≤ (edgeState.gameObjects.getD 0 defaultTriangle).y ∧
        (edgeState.gameObjects.getD 0 defaultTriangle).y ≤ 1 - 1/10) ∧
      ((update edgeState).gameObjects.getD 0 defaultTriangle).y = 181/200 ∧
      ¬ ((update edgeState).gameObjects.getD 0 defaultTriangle).y ≤ 1 - 1/10 := by
  decide

/-- C4, amended: the bound tests are applied to the position before the
step, so a step can overshoot [-1+size, 1-size] by at most 0.01; for every
tick sequence and every key combination, the player stays in the widened box
[-1+size-0.01, 1-size+0.01] on both axes (and its size never changes). -/
theorem c4_player_box (s : GameModel) (p : Triangle) (inputs : List Keys)
    (h : s.gameObjects.head? = some p) (hb : inPlayBox p) :
    ∃ q, (runTicks s inputs).gameObjects.head? = some q ∧
      q.size = p.size ∧ inPlayBox q :=
  runTicks_player_bounds inputs s p h hb

/-- C4, witness: two ticks with all four arrow keys held, starting from the
quiet demo state. -/
theorem c4_witness :
    ∃ q, (runTicks quietState
        [⟨true, true, true, true⟩, ⟨true, true, true, true⟩]).gameObjects.head?
          = some q ∧ q.size = demoPlayer.size ∧ inPlayBox q :=
  c4_player_box quietState demoPlayer _ (by decide)
    (by constructor <;> [decide; constructor <;> [decide; constructor <;> decide]])

/-- C5: the code skips a pair.  In c5State both collectibles collide with
the player; the pass removes the first at inner index 1, the second shifts
into index 1, and the inner loop (already at index 2) never examines the
pair (player, second collectible): it survives the pass and only 10 points
are scored, although every pair of start-live entities was claimed to be
checked exactly once. -/
theorem c5_skipped_pair :
    isColliding demoPlayer demoBlueA = true ∧
      isColliding demoPlayer demoBlueB = true ∧
      (checkCollisions c5State).gameObjects = [demoPlayer, demoBlueB] ∧
      (checkCollisions c5State).score = 10 := by
  decide

/-- C6, confirmed: at a tick whose elapsed time has reached the 60000 ms
duration while the state is still ACTIVE, the timeout check forces the state
to LOST before the update runs, and the tick schedules no further tick
(nothing in the update can restore the playing state). -/
theorem c6_timeout_lost (m : GameModel) (startTime now : ℤ)
    (_hplay : m.gameState = .playing) (htime : gameDuration ≤ now - startTime) :
    (applyTimeout m startTime now).gameState = .lost ∧
      (gameLoopStep m startTime now).2 = false := by
  have hlost : (applyTimeout m startTime now).gameState = .lost := by
    simp only [applyTimeout]
    rw [if_pos]
    rw [max_le_iff]
    exact ⟨le_refl 0, by simp only [gameDuration] at htime ⊢; omega⟩
  refine ⟨hlost, ?_⟩
  simp only [gameLoopStep, decide_eq_false_iff_not]
  intro h
  have := update_playing _ h
  rw [hlost] at this
  exact absurd this (by simp)

/-- C6, witness: the active c2State at the moment the minute has elapsed. -/
theorem c6_witness :
    (applyTimeout c2State 0 60000).gameState = .lost ∧
      (gameLoopStep c2State 0 60000).2 = false :=
  c6_timeout_lost c2State 0 60000 (by decide) (by decide)

/-- C7, counterexample.  With the stream c7Rng the fourth entity draws the
green palette entry, so two entities of the spawned world carry the opaque
green color: green does not uniquely identify the player. -/
theorem c7_counterexample :
    (createGameObjects c7Rng).countP (fun t => t.color == greenColor) = 2 ∧
      ¬ (createGameObjects c7Rng).countP (fun t => t.color == greenColor) = 1 := by
  constructor
  · decide
  · decide

/-- C7, amended: the designated player is the unique first entity; its color
is set to opaque green by every spawn and no tick ever changes the color of
the player entry — but other entities may also be green, so color does not
uniquely determine the player. -/
theorem c7_player_green_stable :
    (∀ g : Rng, ((createGameObjects g).getD 0 defaultTriangle).color = greenColor) ∧
      (∀ s : GameModel,
        ((update s).gameObjects.getD 0 defaultTriangle).color
          = (s.gameObjects.getD 0 defaultTriangle).color) :=
  ⟨createGameObjects_player_color, update_player_color⟩

/-- C8, confirmed: every spawn from a valid Math.random stream produces
exactly 10 entities, each of the fixed size 0.1 and with both coordinates
inside [-1+size, 1-size]. -/
theorem c8_spawn_count_bounds (g : Rng) (hg : validRng g) :
    (createGameObjects g).length = 10 ∧
      ∀ t ∈ createGameObjects g, t.size = size0 ∧
        (-1 + size0 ≤ t.x ∧ t.x ≤ 1 - size0) ∧
        (-1 + size0 ≤ t.y ∧ t.y ≤ 1 - size0) :=
  ⟨createGameObjects_length g, createGameObjects_mem g hg⟩

/-- C8, witness: the constant one-half stream is valid and spawns 10
in-bounds entities. -/
theorem c8_witness :
    validRng halfRng ∧
      ((createGameObjects halfRng).length = 10 ∧
        ∀ t ∈ createGameObjects halfRng, t.size = size0 ∧
          (-1 + size0 ≤ t.x ∧ t.x ≤ 1 - size0) ∧
          (-1 + size0 ≤ t.y ∧ t.y ≤ 1 - size0)) := by
  have hv : validRng halfRng := by
    intro n
    constructor <;> norm_num [halfRng]
  exact ⟨hv, c8_spawn_count_bounds halfRng hv⟩

/-- C9, confirmed: whenever a tick ends with exactly one non-hazard entity
in the live collection, that tick's final win check has set the state to
WON — the check runs every tick, after the collision pass (which is the only
place entities are removed) and before the loop driver reads the state. -/
theorem c9_win_check (s : GameModel)
    (h : (nonRedTriangles (update s).gameObjects).length = 1) :
    (update s).gameState = .won := by
  simp only [update] at h ⊢
  rw [checkGameOver_gameObjects] at h
  simp [checkGameOver, h]

/-- C9, witness: one tick from winState leaves only the player among the
non-red entities, and the state is WON. -/
theorem c9_witness : (update winState).gameState = .won :=
  c9_win_check winState (by decide)

/-- C10, confirmed: the collision test is symmetric for entities of equal
size (every entity of this game has the fixed size 0.1); the distance term
is symmetric and the threshold reads the size of the first argument. -/
theorem c10_isColliding_symm (a b : Triangle) (h : a.size = b.size) :
    isColliding a b = isColliding b a := by
  simp only [isColliding]
  have hsum : (a.x - b.x) * (a.x - b.x) + (a.y - b.y) * (a.y - b.y)
      = (b.x - a.x) * (b.x - a.x) + (b.y - a.y) * (b.y - a.y) := by ring
  rw [hsum, h]

/-- C10, witness: symmetry evaluated on two concrete triangles of the
common size. -/
theorem c10_witness :
    isColliding demoPlayer demoBlueA = isColliding demoBlueA demoPlayer :=
  c10_isColliding_symm demoPlayer demoBlueA rfl

end Game2D
